import Mathlib

/-!
Verification development for the react-sse stream connection manager.

The definitions below are a shallow embedding of the TypeScript sources:
  * `src/useSSE.ts`            — the per-consumer hook (fetch-based transport path),
  * `src/shared-worker.ts`     — the shared-worker broker (`SSESharedWorker`),
  * `src/useSSEWithSharedWorker.ts` — the hook binding onto the shared worker.

Modelling conventions:
  * Decoded text is modelled at the character level (`List Char`); the
    `TextDecoder` byte-to-char step is outside the scope of the claims checked
    here, and every counterexample uses ASCII where bytes and chars coincide.
  * `Math.random() * 1000` jitter is passed in as an explicit rational
    parameter `jitter` (with `0 ≤ jitter < 1000` where the claims assume it);
    millisecond delays are rationals.
  * `setTimeout(...)` for the retry timer is modelled as the field
    `retryScheduled : Option ℚ` (the pending delay, `none` when no timer).
  * `SSEEvent.timestamp` (`Date.now()`) is omitted: no checked claim mentions
    it and it does not influence any control flow.  `JSON.parse` of the data
    payload yields either the parsed value or the raw string; either way the
    code constructs exactly one event with the same `type`/`id`, so events
    carry the raw payload text here.
  * `options.retryDelayFn` is `undefined` in the modelled runs (the default
    backoff); `calculateRetryDelay` itself keeps the custom-function branch.
  * Steady-state runs are modelled: the `isCleaningUp` flag of `useSSE` is
    `false` and message ports are attached, matching the situations the
    claims describe.
-/

namespace ReactSSE

/-! ### Frame decoder (`connectWithFetch` read loop, `useSSE.ts` lines 255-309
    and `shared-worker.ts` lines 259-299; both copies are line-for-line the
    same algorithm). -/

/-- Whitespace trimmed by JavaScript `String.prototype.trim` (ASCII part). -/
def isWs (c : Char) : Bool :=
  c == ' ' || c == '\t' || c == '\n' || c == '\r' || c == '\x0b' || c == '\x0c'

/-- `line.trim()` on character lists. -/
def jsTrim (l : List Char) : List Char :=
  ((l.dropWhile isWs).reverse.dropWhile isWs).reverse

/-- `s.startsWith(p)` on character lists (`hasPre p s`). -/
def hasPre : List Char → List Char → Bool
  | [], _ => true
  | _ :: _, [] => false
  | p :: ps, c :: cs => p == c && hasPre ps cs

/-- `buffer.split('\n')` followed by `buffer = lines.pop() || ''`:
    returns the complete lines (in order) and the retained trailing
    fragment that has not yet been terminated by `'\n'`. -/
def splitNl : List Char → List (List Char) × List Char
  | [] => ([], [])
  | c :: cs =>
    let r := splitNl cs
    if c = '\n' then ([] :: r.1, r.2)
    else
      match r.1 with
      | [] => ([], c :: r.2)
      | l :: ls => ((c :: l) :: ls, r.2)

/-- One decoded event frame (`SSEEvent` minus the timestamp; `data` is the
    raw accumulated payload text, see the header comment). -/
structure Frame where
  type : List Char
  data : List Char
  id : Option (List Char)
deriving DecidableEq, Repr

/-- The per-chunk accumulator `eventType` / `eventData` / `eventId`,
    re-initialised at the start of every chunk-processing pass. -/
structure PassAcc where
  type : List Char
  data : List Char
  id : Option (List Char)
deriving DecidableEq, Repr

/-- The `for (const line of lines)` body: `event:` sets the type, `data:`
    appends (joined with a newline when data is already present), `id:` sets
    the id.  Prefixes are checked in source order. -/
def stepLine (acc : PassAcc) (line : List Char) : PassAcc :=
  if hasPre ("event:").data line then
    { acc with type := jsTrim (line.drop 6) }
  else if hasPre ("data:").data line then
    { acc with data := acc.data ++ (if acc.data.isEmpty then [] else ['\n']) ++ jsTrim (line.drop 5) }
  else if hasPre ("id:").data line then
    { acc with id := some (jsTrim (line.drop 3)) }
  else acc

/-- One chunk-processing pass over the complete lines of the pass, starting
    from `eventType = 'message'`, `eventData = ''`, `eventId = undefined`. -/
def processPass (lines : List (List Char)) : PassAcc :=
  lines.foldl stepLine ⟨("message").data, [], none⟩

/-- One iteration of the read loop on a freshly decoded `chunk` with carry
    `buf`: split into lines, retain the trailing fragment, run the pass, and
    emit one `Frame` exactly when the accumulated `eventData` is non-empty. -/
def decodePass (buf chunk : List Char) : List (List Char) × List Char × Option Frame :=
  let p := splitNl (buf ++ chunk)
  let acc := processPass p.1
  (p.1, p.2, if acc.data.isEmpty then none else some ⟨acc.type, acc.data, acc.id⟩)

/-- Decoder run summary: retained fragment, all complete lines consumed so
    far, and all frames emitted so far. -/
structure DecRun where
  buf : List Char
  lines : List (List Char)
  frames : List Frame
deriving DecidableEq, Repr

/-- Feed one chunk to the decoder. -/
def decodeStep (r : DecRun) (chunk : List Char) : DecRun :=
  let p := decodePass r.buf chunk
  { buf := p.2.1, lines := r.lines ++ p.1, frames := r.frames ++ p.2.2.toList }

/-- Feed a whole chunk sequence to the decoder, starting empty. -/
def decodeRun (chunks : List (List Char)) : DecRun :=
  chunks.foldl decodeStep ⟨[], [], []⟩

/-- The sequence of decoded events produced from a chunk sequence. -/
def decodeStream (chunks : List (List Char)) : List Frame :=
  (decodeRun chunks).frames

/-! ### Event buffer (`MAX_EVENTS` cap, `handleSSEEvent` in `shared-worker.ts`
    lines 399-412 and the `setEvents` updater in `useSSE.ts` lines 284-290;
    both keep the last 100 entries via `slice(-MAX_EVENTS)`). -/

/-- `const MAX_EVENTS = 100`. -/
def MAX_EVENTS : Nat := 100

/-- The last `n` elements of a list, in order (`slice(-n)` on a list longer
    than `n`). -/
def lastN (n : Nat) (l : List α) : List α :=
  l.drop (l.length - n)

/-- Append one event and evict from the front past the cap:
    `events.push(e); if (events.length > MAX_EVENTS) events = events.slice(-MAX_EVENTS)`. -/
def pushEvent (b : List α) (e : α) : List α :=
  let l := b ++ [e]
  if l.length > MAX_EVENTS then lastN MAX_EVENTS l else l

/-! ### Statuses, errors, options. -/

/-- `SSEStatus` from `types.ts`. -/
inductive SSEStatus where
  | disconnected
  | connecting
  | connected
  | error
  | closed
deriving DecidableEq, Repr

/-- An `Error` value as observed by the handlers: its `name` and `message`. -/
structure ErrInfo where
  name : String
  message : String
deriving DecidableEq, Repr

/-- The fields of `SSEOptions` the modelled code paths read, with the source
    defaults.  `headersCount` stands for `Object.keys(headers).length` (only
    emptiness is ever inspected).  `retryDelayFn` is left out: the modelled
    runs use the default backoff (see the header comment). -/
structure SSEOptions where
  maxRetryDelay : ℚ := 30000
  initialRetryDelay : ℚ := 1000
  maxRetries : Nat := 5
  autoReconnect : Bool := true
  headersCount : Nat := 0
deriving DecidableEq, Repr

/-- `calculateRetryDelay` (identical in `useSSE.ts` lines 63-72 and
    `shared-worker.ts` lines 469-481): a custom function is clamped by
    `maxDelay`; the default is `min(initialDelay * 2^attempt + jitter, maxDelay)`
    with `jitter = Math.random() * 1000` passed in explicitly. -/
def calculateRetryDelay (attempt : Nat) (initialDelay maxDelay : ℚ)
    (customFn : Option (Nat → ℚ)) (jitter : ℚ) : ℚ :=
  match customFn with
  | some f => min (f attempt) maxDelay
  | none => min (initialDelay * 2 ^ attempt + jitter) maxDelay

/-! ### Shared worker broker (`SSESharedWorker` in `shared-worker.ts`). -/

/-- `ClientInfo` from `worker-types.ts`; the `MessagePort` is an opaque
    token. -/
structure ClientInfo where
  id : String
  port : Nat
  subscribed : Bool
deriving DecidableEq, Repr

/-- `this.currentConnection`. -/
structure ConnState where
  url : String
  options : SSEOptions
  status : SSEStatus
  events : List Frame
  lastEvent : Option Frame
  error : Option ErrInfo
  retryCount : Nat
deriving DecidableEq, Repr

/-- The worker's mutable fields: the client registry (a `Map` in insertion
    order with unique ids), the connection record, the pending retry timer
    and the retry attempt counter. -/
structure WorkerState where
  clients : List ClientInfo
  conn : Option ConnState
  retryScheduled : Option ℚ
  retryAttempt : Nat
deriving DecidableEq, Repr

/-- `WorkerResponse` messages posted to clients. -/
inductive Msg where
  | status (s : SSEStatus)
  | event (e : Frame)
  | err (e : ErrInfo)
  | retryCount (n : Nat)
  | connected (url : String)
  | disconnected
deriving DecidableEq, Repr

/-- `WorkerMessage` requests handled by `handleMessage` (SUBSCRIBE and
    UNSUBSCRIBE act on the requesting port's client id). -/
inductive WorkerMessage where
  | connectMsg (url : String) (options : SSEOptions)
  | disconnectMsg
  | reconnectMsg
  | subscribeMsg
  | unsubscribeMsg
deriving DecidableEq, Repr

/-- Result of one worker operation: the new state, the messages posted
    (tagged with the receiving client id, in posting order), and the
    transport-open request issued synchronously, if any
    (`establishConnection(url, options)`). -/
structure WOut where
  ws : WorkerState
  out : List (String × Msg)
  openReq : Option (String × SSEOptions)
deriving Repr

/-- `sendToClient`: look the client up; post only when it is present. -/
def sendToClient (ws : WorkerState) (cid : String) (m : Msg) : List (String × Msg) :=
  match ws.clients.find? (fun c => c.id == cid) with
  | some _ => [(cid, m)]
  | none => []

/-- `broadcast`: walk the registry and post to every subscribed client. -/
def broadcast (ws : WorkerState) (m : Msg) : List (String × Msg) :=
  (ws.clients.map (fun ci => if ci.subscribed then sendToClient ws ci.id m else [])).flatten

/-- Flip the `subscribed` flag of the client with the given id. -/
def setSubscribed (l : List ClientInfo) (cid : String) (b : Bool) : List ClientInfo :=
  l.map (fun c => if c.id == cid then { c with subscribed := b } else c)

/-- Whether a client id is registered. -/
def hasClient (ws : WorkerState) (cid : String) : Bool :=
  ws.clients.any (fun c => c.id == cid)

/-- The registry's ids, in insertion order. -/
def clientIds (ws : WorkerState) : List String :=
  ws.clients.map ClientInfo.id

/-- `Map.set`: overwrite in place when the id exists, append otherwise. -/
def mapSet (l : List ClientInfo) (cid : String) (ci : ClientInfo) : List ClientInfo :=
  if l.any (fun c => c.id == cid) then l.map (fun c => if c.id == cid then ci else c)
  else l ++ [ci]

/-- `handleConnect`: a new port attaches with `subscribed = false`; when a
    connection already exists it is primed with CONNECTED, STATUS,
    RETRY_COUNT and the last event (if any). -/
def handleConnect (ws : WorkerState) (cid : String) (port : Nat) : WOut :=
  let ws' := { ws with clients := mapSet ws.clients cid ⟨cid, port, false⟩ }
  match ws'.conn with
  | none => ⟨ws', [], none⟩
  | some c =>
    ⟨ws',
      sendToClient ws' cid (.connected c.url) ++
      sendToClient ws' cid (.status c.status) ++
      sendToClient ws' cid (.retryCount c.retryCount) ++
      (match c.lastEvent with
       | some e => sendToClient ws' cid (.event e)
       | none => []),
      none⟩

/-- `subscribeClient`: flip `subscribed = true`, then send the current
    STATUS, RETRY_COUNT and every cached event, in buffer order. -/
def subscribeClient (ws : WorkerState) (cid : String) : WOut :=
  match ws.clients.find? (fun c => c.id == cid) with
  | none => ⟨ws, [], none⟩
  | some _ =>
    let ws' := { ws with clients := setSubscribed ws.clients cid true }
    match ws'.conn with
    | none => ⟨ws', [], none⟩
    | some c =>
      ⟨ws',
        sendToClient ws' cid (.status c.status) ++
        sendToClient ws' cid (.retryCount c.retryCount) ++
        (c.events.map (fun e => sendToClient ws' cid (.event e))).flatten,
        none⟩

/-- `unsubscribeClient`: flip `subscribed = false`; the entry stays. -/
def unsubscribeClient (ws : WorkerState) (cid : String) : WOut :=
  ⟨{ ws with clients := setSubscribed ws.clients cid false }, [], none⟩

/-- `disconnect`: clear the retry timer, abort the transport, settle the
    connection record into `disconnected` with all cached data cleared,
    reset the attempt counter, and broadcast DISCONNECTED plus STATUS. -/
def wDisconnect (ws : WorkerState) : WOut :=
  let ws' : WorkerState :=
    { ws with
      retryScheduled := none
      conn := ws.conn.map (fun c =>
        { c with status := .disconnected, events := [], lastEvent := none,
                 error := none, retryCount := 0 })
      retryAttempt := 0 }
  ⟨ws', broadcast ws' .disconnected ++ broadcast ws' (.status .disconnected), none⟩

/-- `handleSSEEvent`: record the event as last event, push it into the
    capped buffer, and broadcast it. -/
def handleSSEEvent (ws : WorkerState) (e : Frame) : WOut :=
  let ws' := { ws with conn := ws.conn.map (fun c =>
    { c with lastEvent := some e, events := pushEvent c.events e }) }
  ⟨ws', broadcast ws' (.event e), none⟩

/-- `handleError` (lines 414-467): record the error, broadcast ERROR and
    STATUS error; then either bump the retry counter and start the backoff
    timer (auto-reconnect on and attempts remaining) or settle the status
    into `disconnected`. -/
def handleError (ws : WorkerState) (e : ErrInfo) (opts : SSEOptions) (jitter : ℚ) : WOut :=
  let ws₁ := { ws with conn := ws.conn.map (fun c =>
    { c with error := some e, status := .error }) }
  let out₁ := broadcast ws₁ (.err e) ++ broadcast ws₁ (.status .error)
  if opts.autoReconnect = true ∧ ws.retryAttempt < opts.maxRetries ∧ ws₁.conn.isSome = true then
    let ra := ws.retryAttempt + 1
    let ws₂ := { ws₁ with
      retryAttempt := ra
      conn := ws₁.conn.map (fun c => { c with retryCount := ra }) }
    let delay := calculateRetryDelay (ra - 1) opts.initialRetryDelay opts.maxRetryDelay none jitter
    ⟨{ ws₂ with retryScheduled := some delay },
      out₁ ++ broadcast ws₂ (.retryCount ra), none⟩
  else
    let ws₂ := { ws₁ with conn := ws₁.conn.map (fun c => { c with status := .disconnected }) }
    ⟨ws₂, out₁ ++ broadcast ws₂ (.status .disconnected), none⟩

/-- The `catch` block of the worker's `connectWithFetch` (lines 309-332):
    AbortError is swallowed; AuthenticationError settles the connection into
    `disconnected` with the cached events and last event cleared and no
    retry; every other error goes to `handleError`. -/
def fetchCatch (ws : WorkerState) (e : ErrInfo) (opts : SSEOptions) (jitter : ℚ) : WOut :=
  if e.name = "AbortError" then ⟨ws, [], none⟩
  else if e.name = "AuthenticationError" then
    let ws' := { ws with conn := ws.conn.map (fun c =>
      { c with status := .disconnected, events := [], lastEvent := none }) }
    ⟨ws', broadcast ws' (.status .disconnected) ++ broadcast ws' (.err e), none⟩
  else handleError ws e opts jitter

/-- The worker's read loop from the `connected` state (lines 242-308): each
    chunk is decoded; a completed frame is handled when a connection record
    exists; `done` throws `'Stream ended unexpectedly'`, which the catch
    block receives. -/
def wReadLoop (ws : WorkerState) (buf : List Char) (chunks : List (List Char))
    (opts : SSEOptions) (jitter : ℚ) : WOut :=
  match chunks with
  | [] => fetchCatch ws ⟨"Error", "Stream ended unexpectedly"⟩ opts jitter
  | c :: rest =>
    let p := decodePass buf c
    match p.2.2 with
    | some f =>
      if ws.conn.isSome then
        let h := handleSSEEvent ws f
        let r := wReadLoop h.ws p.2.1 rest opts jitter
        ⟨r.ws, h.out ++ r.out, r.openReq⟩
      else wReadLoop ws p.2.1 rest opts jitter
    | none => wReadLoop ws p.2.1 rest opts jitter

/-- `reconnect` (lines 483-497): zero the attempt counter; when a connection
    record exists, clear its retry count, error and cached events, run
    `disconnect()` (which also drops any pending retry timer), and
    immediately call `establishConnection` with the same url and options. -/
def wReconnect (ws : WorkerState) : WOut :=
  let ws₀ := { ws with retryAttempt := 0 }
  match ws₀.conn with
  | none => ⟨ws₀, [], none⟩
  | some c =>
    let c' := { c with retryCount := 0, error := none, events := [], lastEvent := none }
    let ws₁ := { ws₀ with conn := some c' }
    let d := wDisconnect ws₁
    ⟨d.ws, d.out, some (c.url, c.options)⟩

/-- `connect` (lines 135-163): connecting to the currently connected url
    only re-announces CONNECTED and the current status; otherwise the old
    connection is torn down, a fresh `connecting` record is installed,
    CONNECTED and STATUS are broadcast and the transport is opened. -/
def wConnect (ws : WorkerState) (url : String) (opts : SSEOptions) : WOut :=
  match ws.conn with
  | some c =>
    if c.url == url then
      ⟨ws, broadcast ws (.connected url) ++ broadcast ws (.status c.status), none⟩
    else
      let d := wDisconnect ws
      let ws₁ := { d.ws with conn := some ⟨url, opts, .connecting, [], none, none, 0⟩ }
      ⟨ws₁, d.out ++ broadcast ws₁ (.connected url) ++ broadcast ws₁ (.status .connecting),
        some (url, opts)⟩
  | none =>
    let d := wDisconnect ws
    let ws₁ := { d.ws with conn := some ⟨url, opts, .connecting, [], none, none, 0⟩ }
    ⟨ws₁, d.out ++ broadcast ws₁ (.connected url) ++ broadcast ws₁ (.status .connecting),
      some (url, opts)⟩

/-- `handleMessage` (lines 81-99): dispatch on the message type; SUBSCRIBE
    and UNSUBSCRIBE act on the requesting port's client id. -/
def handleMessage (ws : WorkerState) (cid : String) (m : WorkerMessage) : WOut :=
  match m with
  | .connectMsg url opts => wConnect ws url opts
  | .disconnectMsg => wDisconnect ws
  | .reconnectMsg => wReconnect ws
  | .subscribeMsg => subscribeClient ws cid
  | .unsubscribeMsg => unsubscribeClient ws cid

/-- The messages a given client receives from an output trace, in order. -/
def msgsTo (cid : String) (out : List (String × Msg)) : List Msg :=
  (out.filter (fun p => p.1 == cid)).map Prod.snd

/-- `true` when every STATUS message in the trace announces
    `disconnected`. -/
def allDisconnected (out : List (String × Msg)) : Bool :=
  out.all (fun p =>
    match p.2 with
    | .status s => s == SSEStatus.disconnected
    | _ => true)

/-! ### The `useSSE` hook (`useSSE.ts`).

React batches the `setXxx` calls issued inside one synchronous handler run,
so a handler is modelled as one state-to-state function: the state it leaves
behind is the state the consumer observes.  The `eventSource` ref and the
auto-connect timer are not modelled (no checked claim concerns the
`EventSource` transport path or the auto-connect delay). -/

/-- The hook's state: the five `useState` cells, the refs
    (`retryAttemptRef`, `shouldReconnectRef`, `urlRef`), the `shouldConnect`
    cell and the pending retry timer (`retryTimeoutRef`). -/
structure HookState where
  status : SSEStatus
  lastEvent : Option Frame
  events : List Frame
  error : Option ErrInfo
  retryCount : Nat
  shouldConnect : Bool
  retryAttempt : Nat
  shouldReconnect : Bool
  retryScheduled : Option ℚ
  url : Option String
deriving DecidableEq, Repr

/-- `setLastEvent(event)` plus the capped `setEvents` updater
    (lines 283-290 / 300-307). -/
def useSSE_applyEvent (st : HookState) (f : Frame) : HookState :=
  { st with lastEvent := some f, events := pushEvent st.events f }

/-- The fetch read loop of `useSSE.connectWithFetch` (lines 232-310): decode
    each chunk and apply any completed event; on `done` the loop just
    `break`s and the `try` block completes with the state as it stands. -/
def useSSE_runStream (st : HookState) (buf : List Char) (chunks : List (List Char)) : HookState :=
  match chunks with
  | [] => st
  | c :: rest =>
    let p := decodePass buf c
    match p.2.2 with
    | some f => useSSE_runStream (useSSE_applyEvent st f) p.2.1 rest
    | none => useSSE_runStream st p.2.1 rest

/-- The `catch` block of `useSSE.connectWithFetch` (lines 311-349), outside
    cleanup: AbortError/AbortException is swallowed; otherwise the error is
    recorded with status `error`; AuthenticationError then settles into
    `disconnected` with events and last event cleared and no retry; other
    errors retry (bumping the attempt counter and starting the backoff
    timer) when reconnection is enabled and attempts remain, and otherwise
    settle into `disconnected` with events and last event cleared. -/
def useSSE_handleCatch (st : HookState) (e : ErrInfo) (opts : SSEOptions) (jitter : ℚ) : HookState :=
  if e.name = "AbortError" ∨ e.name = "AbortException" then st
  else
    let st₁ := { st with error := some e, status := .error }
    if e.name = "AuthenticationError" then
      { st₁ with status := .disconnected, events := [], lastEvent := none }
    else if st.shouldReconnect = true ∧ st.retryAttempt < opts.maxRetries then
      let ra := st.retryAttempt + 1
      { st₁ with
        retryAttempt := ra
        retryCount := ra
        retryScheduled :=
          some (calculateRetryDelay (ra - 1) opts.initialRetryDelay opts.maxRetryDelay none jitter) }
    else
      { st₁ with status := .disconnected, events := [], lastEvent := none }

/-- `reconnect` (lines 91-102): cleanup (drops the pending retry timer),
    zero the attempt counter and the retry count, clear the error, re-enable
    reconnection, and set status `connecting` when a url is present.  The
    events list and last event are not touched. -/
def useSSE_reconnect (st : HookState) : HookState :=
  { st with
    retryScheduled := none
    retryAttempt := 0
    retryCount := 0
    error := none
    shouldReconnect := true
    status := if st.url.isSome then .connecting else st.status }

/-- `connect` (lines 105-110): enable connecting and set status
    `connecting` when a url is present. -/
def useSSE_connect (st : HookState) : HookState :=
  { st with
    shouldConnect := true
    status := if st.url.isSome then .connecting else st.status }

/-- `close` (lines 113-123): disable reconnection and connecting, cleanup
    (drops the timers), set status `closed` and clear all cached data. -/
def useSSE_close (st : HookState) : HookState :=
  { st with
    shouldReconnect := false
    shouldConnect := false
    retryScheduled := none
    status := .closed
    events := []
    lastEvent := none
    error := none
    retryCount := 0 }

/-- The guard of the connection effect (lines 161-175): a transport is only
    opened when a url is present and `shouldConnect` holds. -/
def useSSE_effectRuns (st : HookState) : Bool :=
  st.url.isSome && st.shouldConnect

/-! ### The `useSSEWithSharedWorker` hook (`useSSEWithSharedWorker.ts`). -/

/-- The local projection kept by the shared-worker hook: its five `useState`
    cells. -/
structure SWHookState where
  status : SSEStatus
  lastEvent : Option Frame
  events : List Frame
  error : Option ErrInfo
  retryCount : Nat
deriving DecidableEq, Repr

/-- The `port.onmessage` handler (lines 72-110): mirror worker notifications
    into local state.  CONNECTED is a no-op; DISCONNECTED overwrites the
    status. -/
def swHandleMsg (st : SWHookState) (m : Msg) : SWHookState :=
  match m with
  | .status s => { st with status := s }
  | .event e => { st with lastEvent := some e, events := pushEvent st.events e }
  | .err e => { st with error := some e }
  | .retryCount n => { st with retryCount := n }
  | .connected _ => st
  | .disconnected => { st with status := .disconnected }

/-- `close` (lines 166-173): post DISCONNECT to the worker and set status
    `closed`; no local field other than the status is touched. -/
def swClose (st : SWHookState) : SWHookState × Option WorkerMessage :=
  ({ st with status := .closed }, some .disconnectMsg)

/-! ### Sample values used by witnesses and counterexamples. -/

/-- A sample decoded event. -/
def frameX : Frame := ⟨("message").data, ("x").data, none⟩

/-- The default options record. -/
def optsD : SSEOptions := {}

/-! ### Buffer lemmas. -/

lemma lastN_length (n : Nat) (l : List α) : (lastN n l).length = min l.length n := by
  simp only [lastN, List.length_drop]
  omega

lemma lastN_of_le (n : Nat) (l : List α) (h : l.length ≤ n) : lastN n l = l := by
  simp only [lastN, Nat.sub_eq_zero_of_le h, List.drop_zero]

lemma pushEvent_lastN (es : List α) (e : α) :
    pushEvent (lastN MAX_EVENTS es) e = lastN MAX_EVENTS (es ++ [e]) := by
  have hM : 1 ≤ MAX_EVENTS := by decide
  rcases Nat.lt_or_ge es.length MAX_EVENTS with h | h
  · rw [lastN_of_le MAX_EVENTS es (Nat.le_of_lt h)]
    simp only [pushEvent]
    rw [if_neg (by simp only [List.length_append, List.length_singleton]; omega),
        lastN_of_le MAX_EVENTS (es ++ [e])
          (by simp only [List.length_append, List.length_singleton]; omega)]
  · have key : lastN MAX_EVENTS es ++ [e] = (es ++ [e]).drop (es.length - MAX_EVENTS) := by
      rw [lastN, List.drop_append_eq_append_drop,
          Nat.sub_eq_zero_of_le (Nat.sub_le _ _), List.drop_zero]
    simp only [pushEvent]
    rw [if_pos (by
      rw [List.length_append, lastN_length]
      simp only [List.length_singleton]
      omega)]
    rw [key]
    have idx : (es.length - MAX_EVENTS) +
        (((es ++ [e]).drop (es.length - MAX_EVENTS)).length - MAX_EVENTS) =
        (es ++ [e]).length - MAX_EVENTS := by
      simp only [List.length_drop, List.length_append, List.length_singleton]
      omega
    rw [lastN, lastN, List.drop_drop, idx]

lemma foldl_pushEvent_eq (es : List α) : es.foldl pushEvent [] = lastN MAX_EVENTS es := by
  induction es using List.reverseRecOn with
  | nil => simp [lastN]
  | append_singleton t e ih =>
    rw [List.foldl_append, List.foldl_cons, List.foldl_nil, ih, pushEvent_lastN]

/-! ### Claim C5. -/

/-- C5: pushing N ≥ 1 events into the empty buffer leaves exactly the last
    `min(N, MAX_EVENTS)` pushed events, in push order, and a push never
    leaves more than `MAX_EVENTS` entries, from any starting buffer. -/
theorem claim5_buffer_window (es : List Frame) (b : List Frame) (e : Frame) (hne : es ≠ []) :
    es.foldl pushEvent [] = lastN MAX_EVENTS es ∧
    (es.foldl pushEvent []).length = min es.length MAX_EVENTS ∧
    (pushEvent b e).length ≤ MAX_EVENTS := by
  refine ⟨foldl_pushEvent_eq es, ?_, ?_⟩
  · rw [foldl_pushEvent_eq, lastN_length]
  · simp only [pushEvent]
    split
    · rw [lastN_length]
      omega
    · simp only [List.length_append, List.length_singleton] at *
      omega

/-- Witness for C5 at a two-event push sequence. -/
theorem claim5_buffer_window_witness :
    ([frameX, frameX] : List Frame) ≠ [] ∧
    (([frameX, frameX] : List Frame).foldl pushEvent [] = lastN MAX_EVENTS [frameX, frameX] ∧
     (([frameX, frameX] : List Frame).foldl pushEvent []).length =
       min ([frameX, frameX] : List Frame).length MAX_EVENTS ∧
     (pushEvent [frameX] frameX).length ≤ MAX_EVENTS) :=
  ⟨by decide, claim5_buffer_window [frameX, frameX] [frameX] frameX (by decide)⟩

/-! ### Claim C7. -/

/-- C7: with `initialRetryDelay = 1000`, `maxRetryDelay = 30000` and the
    default backoff, any jitter in `[0, 1000)` gives the delay
    `min(1000 * 2^attempt + jitter, 30000)`; attempt 0 lands in
    `[1000, 2000)` and attempt 5 lands in `[30000, 31000)`. -/
theorem claim7_backoff_delay (jitter : ℚ) (a : Nat) (h0 : 0 ≤ jitter) (h1 : jitter < 1000) :
    calculateRetryDelay a 1000 30000 none jitter = min (1000 * 2 ^ a + jitter) 30000 ∧
    1000 ≤ calculateRetryDelay 0 1000 30000 none jitter ∧
    calculateRetryDelay 0 1000 30000 none jitter < 2000 ∧
    30000 ≤ calculateRetryDelay 5 1000 30000 none jitter ∧
    calculateRetryDelay 5 1000 30000 none jitter < 31000 := by
  have e0 : calculateRetryDelay 0 1000 30000 none jitter = 1000 + jitter := by
    simp only [calculateRetryDelay, pow_zero, mul_one]
    exact min_eq_left (by linarith)
  have e5 : calculateRetryDelay 5 1000 30000 none jitter = 30000 := by
    have h32 : (1000 : ℚ) * 2 ^ 5 = 32000 := by norm_num
    simp only [calculateRetryDelay, h32]
    exact min_eq_right (by linarith)
  refine ⟨rfl, ?_, ?_, ?_, ?_⟩
  · rw [e0]; linarith
  · rw [e0]; linarith
  · rw [e5]
  · rw [e5]; norm_num

/-! ### Broadcast-trace lemmas. -/

lemma mem_sendToClient {ws : WorkerState} {cid : String} {m : Msg} {p : String × Msg}
    (hp : p ∈ sendToClient ws cid m) : p = (cid, m) := by
  unfold sendToClient at hp
  split at hp
  · simpa using hp
  · cases hp

lemma mem_broadcast {ws : WorkerState} {m : Msg} {p : String × Msg}
    (hp : p ∈ broadcast ws m) : p.2 = m := by
  unfold broadcast at hp
  rw [List.mem_flatten] at hp
  obtain ⟨s, hs, hps⟩ := hp
  rw [List.mem_map] at hs
  obtain ⟨ci, _, rfl⟩ := hs
  by_cases hsub : ci.subscribed
  · rw [if_pos hsub] at hps
    rw [mem_sendToClient hps]
  · rw [if_neg hsub] at hps
    cases hps

lemma allDisconnected_append (a b : List (String × Msg)) :
    allDisconnected (a ++ b) = (allDisconnected a && allDisconnected b) := by
  simp [allDisconnected, List.all_append]

lemma allDisconnected_broadcast_status (ws : WorkerState) :
    allDisconnected (broadcast ws (.status .disconnected)) = true := by
  rw [allDisconnected, List.all_eq_true]
  intro p hp
  rw [mem_broadcast hp]
  rfl

lemma allDisconnected_broadcast_err (ws : WorkerState) (e : ErrInfo) :
    allDisconnected (broadcast ws (.err e)) = true := by
  rw [allDisconnected, List.all_eq_true]
  intro p hp
  simp [mem_broadcast hp]

/-! ### Claim C2. -/

/-- C2: a connect attempt failing with HTTP 401 (`AuthenticationError`)
    settles directly into `disconnected` (every STATUS notification of the
    handler announces `disconnected`), clears the buffered events and the
    last event, and schedules no retry — whatever `maxRetries` and the
    current attempt count are.  The same holds for the `useSSE` hook's catch
    handler on its local state. -/
theorem claim2_auth_error_terminal
    (ws : WorkerState) (c : ConnState) (opts : SSEOptions) (jitter : ℚ) (msg : String)
    (st : HookState)
    (hconn : ws.conn = some c) (htimer : ws.retryScheduled = none)
    (hst : st.retryScheduled = none) :
    (fetchCatch ws ⟨"AuthenticationError", msg⟩ opts jitter).ws.conn =
      some { c with status := .disconnected, events := [], lastEvent := none } ∧
    (fetchCatch ws ⟨"AuthenticationError", msg⟩ opts jitter).ws.retryScheduled = none ∧
    (fetchCatch ws ⟨"AuthenticationError", msg⟩ opts jitter).ws.retryAttempt = ws.retryAttempt ∧
    (fetchCatch ws ⟨"AuthenticationError", msg⟩ opts jitter).openReq = none ∧
    allDisconnected (fetchCatch ws ⟨"AuthenticationError", msg⟩ opts jitter).out = true ∧
    useSSE_handleCatch st ⟨"AuthenticationError", msg⟩ opts jitter =
      { st with error := some ⟨"AuthenticationError", msg⟩, status := .disconnected,
                events := [], lastEvent := none } ∧
    (useSSE_handleCatch st ⟨"AuthenticationError", msg⟩ opts jitter).retryScheduled = none := by
  have hw : fetchCatch ws ⟨"AuthenticationError", msg⟩ opts jitter =
      ⟨{ ws with conn := ws.conn.map (fun cc =>
          { cc with status := .disconnected, events := [], lastEvent := none }) },
        broadcast { ws with conn := ws.conn.map (fun cc =>
          { cc with status := .disconnected, events := [], lastEvent := none }) }
          (.status .disconnected) ++
        broadcast { ws with conn := ws.conn.map (fun cc =>
          { cc with status := .disconnected, events := [], lastEvent := none }) }
          (.err ⟨"AuthenticationError", msg⟩),
        none⟩ := by
    rw [fetchCatch, if_neg (by simp), if_pos (by simp)]
  have hu : useSSE_handleCatch st ⟨"AuthenticationError", msg⟩ opts jitter =
      { st with error := some ⟨"AuthenticationError", msg⟩, status := .disconnected,
                events := [], lastEvent := none } := by
    rw [useSSE_handleCatch, if_neg (by simp), if_pos (by simp)]
  rw [hw, hu, hconn]
  refine ⟨rfl, htimer, rfl, rfl, ?_, rfl, hst⟩
  simp only [allDisconnected_append, allDisconnected_broadcast_status,
    allDisconnected_broadcast_err, Bool.and_self]

/-- Witness for C2 at a concrete worker and hook state. -/
theorem claim2_auth_error_terminal_witness :
    (⟨[⟨"a", 0, true⟩], some ⟨"u", optsD, .connecting, [frameX], some frameX, none, 0⟩,
        none, 0⟩ : WorkerState).conn =
      some ⟨"u", optsD, .connecting, [frameX], some frameX, none, 0⟩ ∧
    (⟨[⟨"a", 0, true⟩], some ⟨"u", optsD, .connecting, [frameX], some frameX, none, 0⟩,
        none, 0⟩ : WorkerState).retryScheduled = none ∧
    (⟨.connecting, some frameX, [frameX], none, 0, true, 0, true, none, some "u"⟩ :
        HookState).retryScheduled = none ∧
    ((fetchCatch ⟨[⟨"a", 0, true⟩],
          some ⟨"u", optsD, .connecting, [frameX], some frameX, none, 0⟩, none, 0⟩
          ⟨"AuthenticationError", "Authentication failed! status: 401"⟩ optsD 0).ws.conn =
        some { (⟨"u", optsD, .connecting, [frameX], some frameX, none, 0⟩ : ConnState) with
          status := .disconnected, events := [], lastEvent := none } ∧
      (fetchCatch ⟨[⟨"a", 0, true⟩],
          some ⟨"u", optsD, .connecting, [frameX], some frameX, none, 0⟩, none, 0⟩
          ⟨"AuthenticationError", "Authentication failed! status: 401"⟩ optsD 0).ws.retryScheduled = none ∧
      (fetchCatch ⟨[⟨"a", 0, true⟩],
          some ⟨"u", optsD, .connecting, [frameX], some frameX, none, 0⟩, none, 0⟩
          ⟨"AuthenticationError", "Authentication failed! status: 401"⟩ optsD 0).ws.retryAttempt =
        (⟨[⟨"a", 0, true⟩], some ⟨"u", optsD, .connecting, [frameX], some frameX, none, 0⟩,
          none, 0⟩ : WorkerState).retryAttempt ∧
      (fetchCatch ⟨[⟨"a", 0, true⟩],
          some ⟨"u", optsD, .connecting, [frameX], some frameX, none, 0⟩, none, 0⟩
          ⟨"AuthenticationError", "Authentication failed! status: 401"⟩ optsD 0).openReq = none ∧
      allDisconnected (fetchCatch ⟨[⟨"a", 0, true⟩],
          some ⟨"u", optsD, .connecting, [frameX], some frameX, none, 0⟩, none, 0⟩
          ⟨"AuthenticationError", "Authentication failed! status: 401"⟩ optsD 0).out = true ∧
      useSSE_handleCatch ⟨.connecting, some frameX, [frameX], none, 0, true, 0, true, none, some "u"⟩
          ⟨"AuthenticationError", "Authentication failed! status: 401"⟩ optsD 0 =
        { (⟨.connecting, some frameX, [frameX], none, 0, true, 0, true, none, some "u"⟩ :
            HookState) with
          error := some ⟨"AuthenticationError", "Authentication failed! status: 401"⟩,
          status := .disconnected, events := [], lastEvent := none } ∧
      (useSSE_handleCatch ⟨.connecting, some frameX, [frameX], none, 0, true, 0, true, none, some "u"⟩
          ⟨"AuthenticationError", "Authentication failed! status: 401"⟩ optsD 0).retryScheduled =
        none) :=
  ⟨rfl, rfl, rfl,
    claim2_auth_error_terminal _ _ optsD 0 "Authentication failed! status: 401" _ rfl rfl rfl⟩

/-- Witness for C7 at jitter 250 and attempt 3. -/
theorem claim7_backoff_delay_witness :
    (0 : ℚ) ≤ 250 ∧ (250 : ℚ) < 1000 ∧
    (calculateRetryDelay 3 1000 30000 none 250 = min (1000 * 2 ^ 3 + 250) 30000 ∧
     1000 ≤ calculateRetryDelay 0 1000 30000 none 250 ∧
     calculateRetryDelay 0 1000 30000 none 250 < 2000 ∧
     30000 ≤ calculateRetryDelay 5 1000 30000 none 250 ∧
     calculateRetryDelay 5 1000 30000 none 250 < 31000) :=
  ⟨by norm_num, by norm_num, claim7_backoff_delay 250 3 (by norm_num) (by norm_num)⟩

/-! ### Claim C3. -/

lemma useSSE_runStream_preserves (st : HookState) (buf : List Char) (chunks : List (List Char)) :
    (useSSE_runStream st buf chunks).status = st.status ∧
    (useSSE_runStream st buf chunks).error = st.error ∧
    (useSSE_runStream st buf chunks).retryScheduled = st.retryScheduled ∧
    (useSSE_runStream st buf chunks).retryCount = st.retryCount := by
  induction chunks generalizing st buf with
  | nil => exact ⟨rfl, rfl, rfl, rfl⟩
  | cons c rest ih =>
    simp only [useSSE_runStream]
    cases hd : (decodePass buf c).2.2 with
    | none => exact ih st _
    | some f => simpa [useSSE_applyEvent] using ih (useSSE_applyEvent st f) (decodePass buf c).2.1

/-- A connected hook state about to read a stream. -/
def stHookB : HookState := ⟨.connected, none, [], none, 0, true, 0, true, none, some "u"⟩

/-- Counterexample to C3: in the `useSSE` fetch path, a stream that delivers
    one event and then ends cleanly leaves the hook silently `connected`,
    with no recorded error and no scheduled retry. -/
theorem claim3_counterexample :
    (useSSE_runStream stHookB [] [("data: x\n").data]).events = [frameX] ∧
    (useSSE_runStream stHookB [] [("data: x\n").data]).status = SSEStatus.connected ∧
    (useSSE_runStream stHookB [] [("data: x\n").data]).error = none ∧
    (useSSE_runStream stHookB [] [("data: x\n").data]).retryScheduled = none := by
  decide

/-- C3 amended: in the shared worker, a clean end of stream raises
    `'Stream ended unexpectedly'` and is handled as a retryable failure —
    the error is recorded, status moves to `error`, the retry counter is
    bumped and a reconnect is scheduled per the backoff policy — while the
    `useSSE` fetch read loop treats a clean end of stream as plain loop
    termination, leaving status, error, retry timer and retry count
    untouched. -/
theorem claim3_clean_end_retry
    (ws : WorkerState) (c : ConnState) (opts : SSEOptions) (jitter : ℚ) (buf : List Char)
    (st : HookState) (sbuf : List Char) (chunks : List (List Char))
    (hconn : ws.conn = some c)
    (hauto : opts.autoReconnect = true) (hretr : ws.retryAttempt < opts.maxRetries) :
    (wReadLoop ws buf [] opts jitter).ws.conn =
      some { c with error := some ⟨"Error", "Stream ended unexpectedly"⟩, status := .error,
                    retryCount := ws.retryAttempt + 1 } ∧
    (wReadLoop ws buf [] opts jitter).ws.retryAttempt = ws.retryAttempt + 1 ∧
    (wReadLoop ws buf [] opts jitter).ws.retryScheduled =
      some (calculateRetryDelay ws.retryAttempt opts.initialRetryDelay opts.maxRetryDelay
        none jitter) ∧
    (useSSE_runStream st sbuf chunks).status = st.status ∧
    (useSSE_runStream st sbuf chunks).error = st.error ∧
    (useSSE_runStream st sbuf chunks).retryScheduled = st.retryScheduled := by
  have hrl : wReadLoop ws buf [] opts jitter =
      handleError ws ⟨"Error", "Stream ended unexpectedly"⟩ opts jitter := by
    rw [wReadLoop, fetchCatch, if_neg (by simp), if_neg (by simp)]
  have hp := useSSE_runStream_preserves st sbuf chunks
  rw [hrl]
  simp only [handleError, hconn, Option.map_some', Option.isSome_some]
  rw [if_pos ⟨hauto, hretr, trivial⟩]
  refine ⟨by trivial, by trivial, ?_, hp.1, hp.2.1, hp.2.2.1⟩
  simp [Nat.add_sub_cancel]

/-- Witness for C3 at a concrete worker state, hook state and stream. -/
theorem claim3_clean_end_retry_witness :
    (⟨[⟨"a", 0, true⟩], some ⟨"u", optsD, .connected, [], none, none, 0⟩, none, 0⟩ :
        WorkerState).conn = some ⟨"u", optsD, .connected, [], none, none, 0⟩ ∧
    optsD.autoReconnect = true ∧
    (⟨[⟨"a", 0, true⟩], some ⟨"u", optsD, .connected, [], none, none, 0⟩, none, 0⟩ :
        WorkerState).retryAttempt < optsD.maxRetries ∧
    ((wReadLoop ⟨[⟨"a", 0, true⟩], some ⟨"u", optsD, .connected, [], none, none, 0⟩, none, 0⟩
        [] [] optsD 0).ws.conn =
      some { (⟨"u", optsD, .connected, [], none, none, 0⟩ : ConnState) with
        error := some ⟨"Error", "Stream ended unexpectedly"⟩, status := .error,
        retryCount := (⟨[⟨"a", 0, true⟩],
          some ⟨"u", optsD, .connected, [], none, none, 0⟩, none, 0⟩ :
            WorkerState).retryAttempt + 1 } ∧
     (wReadLoop ⟨[⟨"a", 0, true⟩], some ⟨"u", optsD, .connected, [], none, none, 0⟩, none, 0⟩
        [] [] optsD 0).ws.retryAttempt =
      (⟨[⟨"a", 0, true⟩], some ⟨"u", optsD, .connected, [], none, none, 0⟩, none, 0⟩ :
        WorkerState).retryAttempt + 1 ∧
     (wReadLoop ⟨[⟨"a", 0, true⟩], some ⟨"u", optsD, .connected, [], none, none, 0⟩, none, 0⟩
        [] [] optsD 0).ws.retryScheduled =
      some (calculateRetryDelay (⟨[⟨"a", 0, true⟩],
        some ⟨"u", optsD, .connected, [], none, none, 0⟩, none, 0⟩ :
          WorkerState).retryAttempt optsD.initialRetryDelay optsD.maxRetryDelay none 0) ∧
     (useSSE_runStream stHookB [] [("data: x\n").data]).status = stHookB.status ∧
     (useSSE_runStream stHookB [] [("data: x\n").data]).error = stHookB.error ∧
     (useSSE_runStream stHookB [] [("data: x\n").data]).retryScheduled =
       stHookB.retryScheduled) :=
  ⟨rfl, rfl, by decide,
    claim3_clean_end_retry _ _ optsD 0 [] stHookB [] [("data: x\n").data] rfl rfl (by decide)⟩

/-! ### Claim C4. -/

/-- A worker state whose retry budget is exhausted and whose buffer is
    non-empty. -/
def wsExhausted : WorkerState :=
  ⟨[⟨"a", 0, true⟩], some ⟨"u", optsD, .connected, [frameX], some frameX, none, 5⟩, none, 5⟩

/-- Counterexample to C4: when the shared worker gives up (attempts
    exhausted), `handleError` settles the status into `disconnected` but the
    buffered events and the last event are left in place, not cleared. -/
theorem claim4_counterexample :
    (handleError wsExhausted ⟨"Error", "SSE connection error"⟩ optsD 0).ws.conn.map
      ConnState.status = some SSEStatus.disconnected ∧
    (handleError wsExhausted ⟨"Error", "SSE connection error"⟩ optsD 0).ws.conn.map
      ConnState.events = some [frameX] ∧
    (handleError wsExhausted ⟨"Error", "SSE connection error"⟩ optsD 0).ws.conn.map
      ConnState.lastEvent = some (some frameX) ∧
    [frameX] ≠ ([] : List Frame) := by
  decide

/-- C4 amended: when a retryable error occurs and retries are exhausted or
    auto-reconnect is off, both implementations settle into `disconnected`
    and schedule nothing; the `useSSE` fetch path also clears the buffered
    events and last event, while the shared worker's `handleError` leaves
    the connection record's events and last event unchanged (they are
    cleared only by explicit disconnect/reconnect or an auth failure). -/
theorem claim4_give_up_settles
    (ws : WorkerState) (c : ConnState) (e : ErrInfo) (opts : SSEOptions) (jitter : ℚ)
    (st : HookState)
    (hconn : ws.conn = some c)
    (hgive : opts.autoReconnect = false ∨ opts.maxRetries ≤ ws.retryAttempt)
    (hab : ¬ (e.name = "AbortError" ∨ e.name = "AbortException"))
    (hauth : e.name ≠ "AuthenticationError")
    (hst : ¬ (st.shouldReconnect = true ∧ st.retryAttempt < opts.maxRetries)) :
    (handleError ws e opts jitter).ws.conn =
      some { c with error := some e, status := .disconnected } ∧
    (handleError ws e opts jitter).ws.retryScheduled = ws.retryScheduled ∧
    (handleError ws e opts jitter).openReq = none ∧
    useSSE_handleCatch st e opts jitter =
      { st with error := some e, status := .disconnected, events := [], lastEvent := none } := by
  have hcond : ¬ (opts.autoReconnect = true ∧ ws.retryAttempt < opts.maxRetries ∧
      (({ ws with conn := ws.conn.map (fun cc =>
        { cc with error := some e, status := SSEStatus.error }) } : WorkerState)).conn.isSome
        = true) := by
    rintro ⟨h1, h2, _⟩
    rcases hgive with h | h
    · rw [h1] at h
      exact Bool.noConfusion h
    · exact absurd h2 (Nat.not_lt.2 h)
  have hu : useSSE_handleCatch st e opts jitter =
      { st with error := some e, status := .disconnected, events := [], lastEvent := none } := by
    rw [useSSE_handleCatch, if_neg hab, if_neg hauth, if_neg hst]
  simp only [handleError]
  rw [if_neg hcond]
  simp only [hconn, Option.map_some']
  refine ⟨?_, ?_, ?_, hu⟩ <;> trivial

/-- Witness for C4 at a concrete exhausted worker and hook state. -/
theorem claim4_give_up_settles_witness :
    wsExhausted.conn = some ⟨"u", optsD, .connected, [frameX], some frameX, none, 5⟩ ∧
    (optsD.autoReconnect = false ∨ optsD.maxRetries ≤ wsExhausted.retryAttempt) ∧
    ¬ (("Error" : String) = "AbortError" ∨ ("Error" : String) = "AbortException") ∧
    ("Error" : String) ≠ "AuthenticationError" ∧
    ¬ ((⟨.error, some frameX, [frameX], none, 5, true, 5, true, none, some "u"⟩ :
        HookState).shouldReconnect = true ∧
       (⟨.error, some frameX, [frameX], none, 5, true, 5, true, none, some "u"⟩ :
        HookState).retryAttempt < optsD.maxRetries) ∧
    ((handleError wsExhausted ⟨"Error", "boom"⟩ optsD 0).ws.conn =
      some { (⟨"u", optsD, .connected, [frameX], some frameX, none, 5⟩ : ConnState) with
        error := some ⟨"Error", "boom"⟩, status := .disconnected } ∧
     (handleError wsExhausted ⟨"Error", "boom"⟩ optsD 0).ws.retryScheduled =
       wsExhausted.retryScheduled ∧
     (handleError wsExhausted ⟨"Error", "boom"⟩ optsD 0).openReq = none ∧
     useSSE_handleCatch
        ⟨.error, some frameX, [frameX], none, 5, true, 5, true, none, some "u"⟩
        ⟨"Error", "boom"⟩ optsD 0 =
      { (⟨.error, some frameX, [frameX], none, 5, true, 5, true, none, some "u"⟩ :
          HookState) with
        error := some ⟨"Error", "boom"⟩, status := .disconnected,
        events := [], lastEvent := none }) :=
  ⟨rfl, by decide, by decide, by decide, by decide,
    claim4_give_up_settles wsExhausted _ ⟨"Error", "boom"⟩ optsD 0 _ rfl
      (by decide) (by decide) (by decide) (by decide)⟩

/-! ### Claim C8. -/

/-- A hook state holding one buffered event and a recorded error. -/
def stHookA : HookState :=
  ⟨.error, some frameX, [frameX], some ⟨"Error", "boom"⟩, 2, true, 2, true, none, some "u"⟩

/-- Counterexample to C8: `useSSE.reconnect` leaves the local events list
    and last event exactly as they were — it does not clear the buffer. -/
theorem claim8_counterexample :
    (useSSE_reconnect stHookA).events = [frameX] ∧
    (useSSE_reconnect stHookA).events ≠ [] ∧
    (useSSE_reconnect stHookA).lastEvent = some frameX := by
  decide

/-- C8 amended: the shared worker's `reconnect` drops any pending retry
    timer, zeroes the retry counters, clears the buffered events, last event
    and error, and immediately issues a transport open for the same url and
    options; `useSSE.reconnect` drops the timer, zeroes the counters and
    clears the error but leaves the local events list and last event
    untouched. -/
theorem claim8_reconnect_fresh
    (ws : WorkerState) (c : ConnState) (st : HookState)
    (hconn : ws.conn = some c) :
    (wReconnect ws).ws.retryScheduled = none ∧
    (wReconnect ws).ws.retryAttempt = 0 ∧
    (wReconnect ws).ws.conn =
      some { c with status := .disconnected, events := [], lastEvent := none,
                    error := none, retryCount := 0 } ∧
    (wReconnect ws).openReq = some (c.url, c.options) ∧
    (useSSE_reconnect st).retryScheduled = none ∧
    (useSSE_reconnect st).retryAttempt = 0 ∧
    (useSSE_reconnect st).retryCount = 0 ∧
    (useSSE_reconnect st).error = none ∧
    (useSSE_reconnect st).shouldReconnect = true ∧
    (useSSE_reconnect st).events = st.events ∧
    (useSSE_reconnect st).lastEvent = st.lastEvent := by
  simp only [wReconnect, wDisconnect, useSSE_reconnect, hconn]
  refine ⟨?_, ?_, ?_, ?_, ?_, ?_, ?_, ?_, ?_, ?_, ?_⟩ <;> trivial

/-- Witness for C8 at a concrete connected worker state. -/
theorem claim8_reconnect_fresh_witness :
    (⟨[⟨"a", 0, true⟩], some ⟨"u", optsD, .error, [frameX], some frameX,
        some ⟨"Error", "boom"⟩, 2⟩, some 4000, 2⟩ : WorkerState).conn =
      some ⟨"u", optsD, .error, [frameX], some frameX, some ⟨"Error", "boom"⟩, 2⟩ ∧
    ((wReconnect ⟨[⟨"a", 0, true⟩], some ⟨"u", optsD, .error, [frameX], some frameX,
        some ⟨"Error", "boom"⟩, 2⟩, some 4000, 2⟩).ws.retryScheduled = none ∧
     (wReconnect ⟨[⟨"a", 0, true⟩], some ⟨"u", optsD, .error, [frameX], some frameX,
        some ⟨"Error", "boom"⟩, 2⟩, some 4000, 2⟩).ws.retryAttempt = 0 ∧
     (wReconnect ⟨[⟨"a", 0, true⟩], some ⟨"u", optsD, .error, [frameX], some frameX,
        some ⟨"Error", "boom"⟩, 2⟩, some 4000, 2⟩).ws.conn =
      some { (⟨"u", optsD, .error, [frameX], some frameX, some ⟨"Error", "boom"⟩, 2⟩ :
          ConnState) with
        status := .disconnected, events := [], lastEvent := none,
        error := none, retryCount := 0 } ∧
     (wReconnect ⟨[⟨"a", 0, true⟩], some ⟨"u", optsD, .error, [frameX], some frameX,
        some ⟨"Error", "boom"⟩, 2⟩, some 4000, 2⟩).openReq =
      some ((⟨"u", optsD, .error, [frameX], some frameX, some ⟨"Error", "boom"⟩, 2⟩ :
          ConnState).url,
        (⟨"u", optsD, .error, [frameX], some frameX, some ⟨"Error", "boom"⟩, 2⟩ :
          ConnState).options) ∧
     (useSSE_reconnect stHookA).retryScheduled = none ∧
     (useSSE_reconnect stHookA).retryAttempt = 0 ∧
     (useSSE_reconnect stHookA).retryCount = 0 ∧
     (useSSE_reconnect stHookA).error = none ∧
     (useSSE_reconnect stHookA).shouldReconnect = true ∧
     (useSSE_reconnect stHookA).events = stHookA.events ∧
     (useSSE_reconnect stHookA).lastEvent = stHookA.lastEvent) :=
  ⟨rfl, claim8_reconnect_fresh _ _ stHookA rfl⟩

/-! ### Claim C9. -/

/-- A shared-worker hook state holding one buffered event. -/
def stSW : SWHookState := ⟨.connected, some frameX, [frameX], none, 1⟩

/-- Counterexample to C9: `useSSEWithSharedWorker.close` leaves the local
    events, last event and retry count in place, and the status does not
    stay `closed`: the worker's subsequent DISCONNECTED notification
    overwrites it with `disconnected`. -/
theorem claim9_counterexample :
    (swClose stSW).1.events = [frameX] ∧
    (swClose stSW).1.events ≠ [] ∧
    (swClose stSW).1.lastEvent = some frameX ∧
    (swClose stSW).1.retryCount = 1 ∧
    (swHandleMsg (swClose stSW).1 Msg.disconnected).status = SSEStatus.disconnected ∧
    (swHandleMsg (swClose stSW).1 Msg.disconnected).status ≠ SSEStatus.closed := by
  decide

/-- C9 amended: `useSSE.close` clears the local events, last event, error
    and retry count, sets status `closed`, and disables the connect effect
    until `connect()` re-enables it; `useSSEWithSharedWorker.close` only
    posts DISCONNECT and sets status `closed`, leaving every other local
    field untouched, and a later DISCONNECTED notification from the worker
    moves the status off `closed`. -/
theorem claim9_close_semantics (st : HookState) (sw : SWHookState) :
    useSSE_close st =
      { st with shouldReconnect := false, shouldConnect := false, retryScheduled := none,
                status := .closed, events := [], lastEvent := none, error := none,
                retryCount := 0 } ∧
    useSSE_effectRuns (useSSE_close st) = false ∧
    (useSSE_connect (useSSE_close st)).shouldConnect = true ∧
    (swClose sw).1 = { sw with status := .closed } ∧
    (swClose sw).2 = some .disconnectMsg ∧
    (swHandleMsg (swClose sw).1 .disconnected).status = .disconnected := by
  refine ⟨rfl, ?_, rfl, rfl, rfl, rfl⟩
  simp [useSSE_effectRuns, useSSE_close]

/-! ### Claim C10. -/

lemma setSubscribed_ids (l : List ClientInfo) (cid : String) (b : Bool) :
    (setSubscribed l cid b).map ClientInfo.id = l.map ClientInfo.id := by
  simp only [setSubscribed, List.map_map]
  apply List.map_congr_left
  intro a _
  show (if (a.id == cid) = true then { a with subscribed := b } else a).id = a.id
  split <;> rfl

lemma wDisconnect_clients (ws : WorkerState) : (wDisconnect ws).ws.clients = ws.clients := rfl

lemma wConnect_clients (ws : WorkerState) (url : String) (opts : SSEOptions) :
    (wConnect ws url opts).ws.clients = ws.clients := by
  rcases hc : ws.conn with _ | c
  · simp [wConnect, hc, wDisconnect]
  · by_cases hu : (c.url == url) = true <;> simp [wConnect, hc, hu, wDisconnect]

lemma wReconnect_clients (ws : WorkerState) : (wReconnect ws).ws.clients = ws.clients := by
  rcases hc : ws.conn with _ | c <;> simp [wReconnect, hc, wDisconnect]

lemma subscribeClient_clients (ws : WorkerState) (cid : String) :
    (subscribeClient ws cid).ws.clients = ws.clients ∨
    (subscribeClient ws cid).ws.clients = setSubscribed ws.clients cid true := by
  rcases hf : ws.clients.find? (fun c => c.id == cid) with _ | ci
  · left
    simp [subscribeClient, hf]
  · rcases hc : ws.conn with _ | c <;> right <;> simp [subscribeClient, hf, hc]

/-- C10: no handled worker message ever removes a registry entry — CONNECT,
    DISCONNECT, RECONNECT, SUBSCRIBE and UNSUBSCRIBE all preserve the list
    of client ids, UNSUBSCRIBE only flips the requesting client's
    `subscribed` flag to false, and a fresh port connection appends exactly
    one new entry. -/
theorem claim10_registry_only_grows
    (ws : WorkerState) (cid cid₂ : String) (port : Nat) (m : WorkerMessage)
    (hfresh : hasClient ws cid₂ = false) :
    clientIds (handleMessage ws cid m).ws = clientIds ws ∧
    (handleMessage ws cid .unsubscribeMsg).ws.clients = setSubscribed ws.clients cid false ∧
    (handleConnect ws cid₂ port).ws.clients = ws.clients ++ [⟨cid₂, port, false⟩] := by
  refine ⟨?_, rfl, ?_⟩
  · cases m with
    | connectMsg url opts =>
      show clientIds (wConnect ws url opts).ws = clientIds ws
      rw [clientIds, clientIds, wConnect_clients]
    | disconnectMsg => rfl
    | reconnectMsg =>
      show clientIds (wReconnect ws).ws = clientIds ws
      rw [clientIds, clientIds, wReconnect_clients]
    | subscribeMsg =>
      show clientIds (subscribeClient ws cid).ws = clientIds ws
      rcases subscribeClient_clients ws cid with h | h <;>
        rw [clientIds, clientIds, h]
      rw [setSubscribed_ids]
    | unsubscribeMsg =>
      show clientIds (unsubscribeClient ws cid).ws = clientIds ws
      rw [clientIds, clientIds, unsubscribeClient, setSubscribed_ids]
  · have hm : mapSet ws.clients cid₂ ⟨cid₂, port, false⟩ =
        ws.clients ++ [⟨cid₂, port, false⟩] := by
      rw [hasClient] at hfresh
      rw [mapSet, if_neg (by rw [hfresh]; exact Bool.noConfusion)]
    rcases hc : ws.conn with _ | c <;> simp [handleConnect, hc, hm]

/-- Witness for C10 at a one-client registry and a fresh id. -/
theorem claim10_registry_only_grows_witness :
    hasClient ⟨[⟨"a", 0, true⟩], none, none, 0⟩ "b" = false ∧
    (clientIds (handleMessage ⟨[⟨"a", 0, true⟩], none, none, 0⟩ "a" .disconnectMsg).ws =
       clientIds ⟨[⟨"a", 0, true⟩], none, none, 0⟩ ∧
     (handleMessage ⟨[⟨"a", 0, true⟩], none, none, 0⟩ "a" .unsubscribeMsg).ws.clients =
       setSubscribed (⟨[⟨"a", 0, true⟩], none, none, 0⟩ : WorkerState).clients "a" false ∧
     (handleConnect ⟨[⟨"a", 0, true⟩], none, none, 0⟩ "b" 1).ws.clients =
       (⟨[⟨"a", 0, true⟩], none, none, 0⟩ : WorkerState).clients ++ [⟨"b", 1, false⟩]) :=
  ⟨by decide, claim10_registry_only_grows _ "a" "b" 1 .disconnectMsg (by decide)⟩

/-! ### Claim C6. -/

lemma findClient_cons_true (x : ClientInfo) (t : List ClientInfo) (cid : String)
    (h : (x.id == cid) = true) :
    List.find? (fun c => c.id == cid) (x :: t) = some x := by
  simp only [List.find?]
  rw [h]

lemma findClient_cons_false (x : ClientInfo) (t : List ClientInfo) (cid : String)
    (h : (x.id == cid) = false) :
    List.find? (fun c => c.id == cid) (x :: t) = List.find? (fun c => c.id == cid) t := by
  simp only [List.find?]
  rw [h]

lemma find?_isSome_of_mem (l : List ClientInfo) (ci : ClientInfo) (hm : ci ∈ l) :
    (l.find? (fun c => c.id == ci.id)).isSome = true := by
  rw [List.find?_isSome]
  exact ⟨ci, hm, by simp⟩

lemma sendToClient_found (ws : WorkerState) (cid : String) (m : Msg)
    (h : (ws.clients.find? (fun c => c.id == cid)).isSome = true) :
    sendToClient ws cid m = [(cid, m)] := by
  rw [sendToClient]
  obtain ⟨x, hx⟩ := Option.isSome_iff_exists.mp h
  rw [hx]

lemma find?_setSubscribed (l : List ClientInfo) (cid : String) (b : Bool) :
    (setSubscribed l cid b).find? (fun c => c.id == cid) =
      (l.find? (fun c => c.id == cid)).map (fun c => { c with subscribed := b }) := by
  induction l with
  | nil => rfl
  | cons x t ih =>
    simp only [setSubscribed, List.map_cons]
    cases hx : (x.id == cid) with
    | true =>
      rw [if_pos rfl, findClient_cons_true _ _ cid (by simpa using hx),
        findClient_cons_true _ _ cid hx]
      rfl
    | false =>
      rw [if_neg (by simp), findClient_cons_false _ _ cid (by simpa using hx),
        findClient_cons_false _ _ cid hx]
      simpa [setSubscribed] using ih

lemma msgsTo_append (cid : String) (a b : List (String × Msg)) :
    msgsTo cid (a ++ b) = msgsTo cid a ++ msgsTo cid b := by
  simp [msgsTo, List.filter_append]

lemma msgsTo_cons_self (cid : String) (m : Msg) (rest : List (String × Msg)) :
    msgsTo cid ((cid, m) :: rest) = m :: msgsTo cid rest := by
  simp [msgsTo]

lemma msgsTo_map_event (cid : String) (l : List Frame) :
    msgsTo cid (l.map (fun e => (cid, Msg.event e))) = l.map Msg.event := by
  induction l with
  | nil => rfl
  | cons e t ih => simp only [List.map_cons, msgsTo_cons_self, ih]

lemma flatten_sendToClient (ws : WorkerState) (cid : String) (l : List Frame)
    (h : (ws.clients.find? (fun c => c.id == cid)).isSome = true) :
    (l.map (fun e => sendToClient ws cid (Msg.event e))).flatten =
      l.map (fun e => (cid, Msg.event e)) := by
  induction l with
  | nil => rfl
  | cons e t ih =>
    simp only [sendToClient_found ws cid _ h] at ih
    simp only [List.map_cons, List.flatten_cons, sendToClient_found ws cid _ h,
      List.singleton_append]
    rw [ih]

lemma filter_sub_id_nil (t : List ClientInfo) (cid : String)
    (h : ∀ c ∈ t, (c.id == cid) = false) :
    t.filter (fun c => c.subscribed && c.id == cid) = [] := by
  rw [List.filter_eq_nil_iff]
  intro a ha
  simp [h a ha]

lemma filter_sub_of_nodup (l : List ClientInfo) (cid : String) (ci : ClientInfo)
    (hnd : (l.map ClientInfo.id).Nodup)
    (hf : l.find? (fun c => c.id == cid) = some ci)
    (hsub : ci.subscribed = true) :
    l.filter (fun c => c.subscribed && c.id == cid) = [ci] := by
  induction l with
  | nil => simp [List.find?] at hf
  | cons x t ih =>
    rw [List.map_cons, List.nodup_cons] at hnd
    cases hx : (x.id == cid) with
    | true =>
      rw [findClient_cons_true _ _ cid hx] at hf
      have heq : x = ci := by simpa using hf
      subst heq
      rw [List.filter_cons_of_pos (by simp [hsub, hx])]
      rw [filter_sub_id_nil t cid ?fresh]
      case fresh =>
        intro cc hcc
        have hxcid : x.id = cid := by simpa using hx
        rw [beq_eq_false_iff_ne]
        intro he
        have hmem : cc.id ∈ t.map ClientInfo.id := List.mem_map_of_mem ClientInfo.id hcc
        rw [he, ← hxcid] at hmem
        exact hnd.1 hmem
    | false =>
      rw [findClient_cons_false _ _ cid hx] at hf
      rw [List.filter_cons_of_neg (by simp [hx])]
      exact ih hnd.2 hf

lemma msgsTo_broadcast_aux (ws : WorkerState) (m : Msg) (cid : String) (l : List ClientInfo)
    (hsubl : ∀ ci ∈ l, ci ∈ ws.clients) :
    msgsTo cid ((l.map (fun ci =>
        if ci.subscribed then sendToClient ws ci.id m else [])).flatten) =
      (l.filter (fun ci => ci.subscribed && ci.id == cid)).map (fun _ => m) := by
  induction l with
  | nil => rfl
  | cons x t ih =>
    have hxm := hsubl x (List.mem_cons_self x t)
    have ht : ∀ ci ∈ t, ci ∈ ws.clients := fun ci hci => hsubl ci (List.mem_cons_of_mem x hci)
    simp only [List.map_cons, List.flatten_cons]
    rw [msgsTo_append, ih ht]
    by_cases hsb : x.subscribed = true
    · rw [if_pos hsb, sendToClient_found ws x.id m (find?_isSome_of_mem _ x hxm)]
      by_cases hid : (x.id == cid) = true
      · rw [List.filter_cons_of_pos (by simp [hsb, hid])]
        have hone : msgsTo cid [(x.id, m)] = [m] := by simp [msgsTo, hid]
        rw [hone, List.map_cons, List.singleton_append]
      · rw [List.filter_cons_of_neg (by simp [hid])]
        have hzero : msgsTo cid [(x.id, m)] = [] := by simp [msgsTo, hid]
        rw [hzero, List.nil_append]
    · have hsb' : x.subscribed = false := by simpa using hsb
      rw [if_neg hsb, List.filter_cons_of_neg (by simp [hsb'])]
      have hzero : msgsTo cid ([] : List (String × Msg)) = [] := rfl
      rw [hzero, List.nil_append]

lemma msgsTo_broadcast (ws : WorkerState) (m : Msg) (cid : String) (ci : ClientInfo)
    (hnd : (ws.clients.map ClientInfo.id).Nodup)
    (hf : ws.clients.find? (fun c => c.id == cid) = some ci)
    (hsub : ci.subscribed = true) :
    msgsTo cid (broadcast ws m) = [m] := by
  rw [broadcast, msgsTo_broadcast_aux ws m cid ws.clients (fun _ h => h),
      filter_sub_of_nodup ws.clients cid ci hnd hf hsub]
  rfl

/-- C6: a subscriber calling subscribe gets its `subscribed` flag set true
    and receives the current STATUS and RETRY_COUNT followed by exactly the
    K buffered events, in buffer order; a live event broadcast afterwards is
    received after the whole replay, so every buffered event is received
    exactly once and before any live event. -/
theorem claim6_subscribe_replay (ws : WorkerState) (cid : String) (ci : ClientInfo)
    (c : ConnState) (live : Frame)
    (hnd : (ws.clients.map ClientInfo.id).Nodup)
    (hfind : ws.clients.find? (fun cl => cl.id == cid) = some ci)
    (hconn : ws.conn = some c) :
    (subscribeClient ws cid).ws.clients.find? (fun cl => cl.id == cid) =
      some { ci with subscribed := true } ∧
    msgsTo cid (subscribeClient ws cid).out =
      [Msg.status c.status, Msg.retryCount c.retryCount] ++ c.events.map Msg.event ∧
    msgsTo cid ((subscribeClient ws cid).out ++
        (handleSSEEvent (subscribeClient ws cid).ws live).out) =
      ([Msg.status c.status, Msg.retryCount c.retryCount] ++ c.events.map Msg.event) ++
        [Msg.event live] := by
  have hsc : subscribeClient ws cid =
      ⟨{ ws with clients := setSubscribed ws.clients cid true },
        sendToClient { ws with clients := setSubscribed ws.clients cid true } cid
          (.status c.status) ++
        sendToClient { ws with clients := setSubscribed ws.clients cid true } cid
          (.retryCount c.retryCount) ++
        (c.events.map (fun e =>
          sendToClient { ws with clients := setSubscribed ws.clients cid true } cid
            (.event e))).flatten,
        none⟩ := by
    simp only [subscribeClient, hfind, hconn]
  have h1 : (setSubscribed ws.clients cid true).find? (fun cl => cl.id == cid) =
      some { ci with subscribed := true } := by
    rw [find?_setSubscribed, hfind]
    rfl
  have h1s : ((({ ws with clients := setSubscribed ws.clients cid true } :
      WorkerState)).clients.find? (fun cl => cl.id == cid)).isSome = true := by
    show ((setSubscribed ws.clients cid true).find? (fun cl => cl.id == cid)).isSome = true
    rw [h1]
    rfl
  have hout : msgsTo cid (subscribeClient ws cid).out =
      [Msg.status c.status, Msg.retryCount c.retryCount] ++ c.events.map Msg.event := by
    rw [hsc]
    show msgsTo cid (_ ++ _ ++ _) = _
    rw [sendToClient_found _ cid _ h1s, sendToClient_found _ cid _ h1s,
      flatten_sendToClient _ cid _ h1s, msgsTo_append, msgsTo_append,
      msgsTo_cons_self, msgsTo_cons_self, msgsTo_map_event]
    rfl
  refine ⟨?_, hout, ?_⟩
  · rw [hsc]
    exact h1
  · rw [msgsTo_append, hout]
    have hnd' : ((((subscribeClient ws cid).ws)).clients.map ClientInfo.id).Nodup := by
      rw [hsc]
      show ((setSubscribed ws.clients cid true).map ClientInfo.id).Nodup
      rw [setSubscribed_ids]
      exact hnd
    have hf' : (((subscribeClient ws cid).ws)).clients.find? (fun cl => cl.id == cid) =
        some { ci with subscribed := true } := by
      rw [hsc]
      exact h1
    have hb : msgsTo cid (handleSSEEvent (subscribeClient ws cid).ws live).out =
        [Msg.event live] := by
      show msgsTo cid (broadcast _ (.event live)) = _
      exact msgsTo_broadcast _ (.event live) cid { ci with subscribed := true }
        hnd' hf' rfl
    rw [hb]

/-- Witness for C6 at a two-client registry with two buffered events. -/
theorem claim6_subscribe_replay_witness :
    ((⟨[⟨"a", 0, false⟩, ⟨"b", 1, true⟩],
        some ⟨"u", optsD, .connected, [frameX, frameX], some frameX, none, 0⟩, none, 0⟩ :
      WorkerState).clients.map ClientInfo.id).Nodup ∧
    (⟨[⟨"a", 0, false⟩, ⟨"b", 1, true⟩],
        some ⟨"u", optsD, .connected, [frameX, frameX], some frameX, none, 0⟩, none, 0⟩ :
      WorkerState).clients.find? (fun cl => cl.id == "a") = some ⟨"a", 0, false⟩ ∧
    (⟨[⟨"a", 0, false⟩, ⟨"b", 1, true⟩],
        some ⟨"u", optsD, .connected, [frameX, frameX], some frameX, none, 0⟩, none, 0⟩ :
      WorkerState).conn = some ⟨"u", optsD, .connected, [frameX, frameX], some frameX, none, 0⟩ ∧
    ((subscribeClient ⟨[⟨"a", 0, false⟩, ⟨"b", 1, true⟩],
        some ⟨"u", optsD, .connected, [frameX, frameX], some frameX, none, 0⟩, none, 0⟩
        "a").ws.clients.find? (fun cl => cl.id == "a") =
      some { (⟨"a", 0, false⟩ : ClientInfo) with subscribed := true } ∧
     msgsTo "a" (subscribeClient ⟨[⟨"a", 0, false⟩, ⟨"b", 1, true⟩],
        some ⟨"u", optsD, .connected, [frameX, frameX], some frameX, none, 0⟩, none, 0⟩
        "a").out =
      [Msg.status (⟨"u", optsD, .connected, [frameX, frameX], some frameX, none, 0⟩ :
          ConnState).status,
       Msg.retryCount (⟨"u", optsD, .connected, [frameX, frameX], some frameX, none, 0⟩ :
          ConnState).retryCount] ++
        (⟨"u", optsD, .connected, [frameX, frameX], some frameX, none, 0⟩ :
          ConnState).events.map Msg.event ∧
     msgsTo "a" ((subscribeClient ⟨[⟨"a", 0, false⟩, ⟨"b", 1, true⟩],
          some ⟨"u", optsD, .connected, [frameX, frameX], some frameX, none, 0⟩, none, 0⟩
          "a").out ++
        (handleSSEEvent (subscribeClient ⟨[⟨"a", 0, false⟩, ⟨"b", 1, true⟩],
          some ⟨"u", optsD, .connected, [frameX, frameX], some frameX, none, 0⟩, none, 0⟩
          "a").ws frameX).out) =
      ([Msg.status (⟨"u", optsD, .connected, [frameX, frameX], some frameX, none, 0⟩ :
          ConnState).status,
        Msg.retryCount (⟨"u", optsD, .connected, [frameX, frameX], some frameX, none, 0⟩ :
          ConnState).retryCount] ++
        (⟨"u", optsD, .connected, [frameX, frameX], some frameX, none, 0⟩ :
          ConnState).events.map Msg.event) ++ [Msg.event frameX]) :=
  ⟨by decide, by decide, rfl,
    claim6_subscribe_replay _ "a" ⟨"a", 0, false⟩ _ frameX (by decide) (by decide) rfl⟩

/-! ### Claim C1. -/

/-- Counterexample to C1: the byte stream `data: a\ndata: b\n` decodes to a
    single event with payload `a\nb` when it arrives in one chunk, but to
    two events `a`, `b` when the two records arrive in separate chunks —
    re-chunking changes the decoded event sequence. -/
theorem claim1_counterexample :
    ([("data: a\ndata: b\n").data] : List (List Char)).flatten =
      ([("data: a\n").data, ("data: b\n").data] : List (List Char)).flatten ∧
    decodeStream [("data: a\ndata: b\n").data] ≠
      decodeStream [("data: a\n").data, ("data: b\n").data] := by
  decide

lemma splitNl_of_no_nl (l : List Char) (h : '\n' ∉ l) : splitNl l = ([], l) := by
  induction l with
  | nil => rfl
  | cons c t ih =>
    have hc : ¬ c = '\n' := by
      rintro rfl
      exact h (List.mem_cons_self _ _)
    have ht : '\n' ∉ t := fun m => h (List.mem_cons_of_mem _ m)
    simp only [splitNl, if_neg hc, ih ht]

lemma splitNl_rest_no_nl (l : List Char) : '\n' ∉ (splitNl l).2 := by
  induction l with
  | nil => simp [splitNl]
  | cons c t ih =>
    by_cases hc : c = '\n'
    · subst hc
      simpa [splitNl] using ih
    · simp only [splitNl, if_neg hc]
      cases h1 : (splitNl t).1 with
      | nil =>
        simp only [h1]
        intro hmem
        rcases List.mem_cons.mp hmem with he | hm
        · exact hc he.symm
        · exact ih hm
      | cons l0 ls =>
        simp only [h1]
        exact ih

lemma splitNl_cons_nl (cs : List Char) :
    splitNl ('\n' :: cs) = ([] :: (splitNl cs).1, (splitNl cs).2) := by
  simp [splitNl]

lemma splitNl_cons_of_nil (c : Char) (cs : List Char) (hc : ¬ c = '\n')
    (h : (splitNl cs).1 = []) :
    splitNl (c :: cs) = ([], c :: (splitNl cs).2) := by
  simp only [splitNl, if_neg hc, h]

lemma splitNl_cons_of_cons (c : Char) (cs : List Char) (l0 : List Char)
    (ls : List (List Char)) (hc : ¬ c = '\n') (h : (splitNl cs).1 = l0 :: ls) :
    splitNl (c :: cs) = ((c :: l0) :: ls, (splitNl cs).2) := by
  simp only [splitNl, if_neg hc, h]

lemma splitNl_append (a b : List Char) :
    splitNl (a ++ b) =
      ((splitNl a).1 ++ (splitNl ((splitNl a).2 ++ b)).1,
       (splitNl ((splitNl a).2 ++ b)).2) := by
  induction a with
  | nil => simp [splitNl]
  | cons c t ih =>
    by_cases hc : c = '\n'
    · subst hc
      rw [List.cons_append, splitNl_cons_nl, splitNl_cons_nl, ih]
      rfl
    · cases h1 : (splitNl t).1 with
      | nil =>
        have ht := splitNl_cons_of_nil c t hc h1
        have hlb : (splitNl (t ++ b)).1 = (splitNl ((splitNl t).2 ++ b)).1 := by
          rw [ih, h1]
          rfl
        have hlb2 : (splitNl (t ++ b)).2 = (splitNl ((splitNl t).2 ++ b)).2 := by
          rw [ih]
        rw [List.cons_append, ht]
        dsimp only
        rw [List.cons_append]
        cases h2 : (splitNl ((splitNl t).2 ++ b)).1 with
        | nil =>
          rw [splitNl_cons_of_nil c (t ++ b) hc (by rw [hlb]; exact h2),
              splitNl_cons_of_nil c ((splitNl t).2 ++ b) hc h2, hlb2]
          rfl
        | cons y ys =>
          rw [splitNl_cons_of_cons c (t ++ b) y ys hc (by rw [hlb]; exact h2),
              splitNl_cons_of_cons c ((splitNl t).2 ++ b) y ys hc h2, hlb2]
          rfl
      | cons l0 ls =>
        have ht := splitNl_cons_of_cons c t l0 ls hc h1
        have hlb : (splitNl (t ++ b)).1 =
            l0 :: (ls ++ (splitNl ((splitNl t).2 ++ b)).1) := by
          rw [ih, h1]
          rfl
        have hlb2 : (splitNl (t ++ b)).2 = (splitNl ((splitNl t).2 ++ b)).2 := by
          rw [ih]
        rw [List.cons_append,
            splitNl_cons_of_cons c (t ++ b) l0 (ls ++ (splitNl ((splitNl t).2 ++ b)).1)
              hc hlb, ht, hlb2]
        rfl

lemma decodeStep_buf (r : DecRun) (c : List Char) :
    (decodeStep r c).buf = (splitNl (r.buf ++ c)).2 := rfl

lemma decodeStep_lines (r : DecRun) (c : List Char) :
    (decodeStep r c).lines = r.lines ++ (splitNl (r.buf ++ c)).1 := rfl

lemma decodeRun_lines_buf (cs : List (List Char)) (r : DecRun) (h : '\n' ∉ r.buf) :
    (cs.foldl decodeStep r).lines = r.lines ++ (splitNl (r.buf ++ cs.flatten)).1 ∧
    (cs.foldl decodeStep r).buf = (splitNl (r.buf ++ cs.flatten)).2 := by
  induction cs generalizing r with
  | nil =>
    rw [List.foldl_nil, List.flatten_nil, List.append_nil, splitNl_of_no_nl r.buf h]
    exact ⟨(List.append_nil _).symm, rfl⟩
  | cons c rest ih =>
    rw [List.foldl_cons, List.flatten_cons]
    have hb : '\n' ∉ (decodeStep r c).buf := by
      rw [decodeStep_buf r c]
      exact splitNl_rest_no_nl _
    obtain ⟨ihl, ihb⟩ := ih (decodeStep r c) hb
    rw [ihl, ihb, decodeStep_buf r c, decodeStep_lines r c]
    have hsa := splitNl_append (r.buf ++ c) rest.flatten
    constructor
    · rw [← List.append_assoc r.buf c rest.flatten, hsa]
      simp [List.append_assoc]
    · rw [← List.append_assoc r.buf c rest.flatten, hsa]

/-- C1 amended: re-chunking the same byte stream can change the decoded
    Event sequence (`claim1_counterexample`) because the decoder emits at
    most one Event per chunk pass, joining every `data:` line of the pass;
    what is chunk-boundary-invariant is the line stream: any two chunkings
    of the same bytes make the decoder consume the same sequence of
    complete lines and retain the same trailing fragment. -/
theorem claim1_rechunk_lines (cs₁ cs₂ : List (List Char)) (h : cs₁.flatten = cs₂.flatten) :
    (decodeRun cs₁).lines = (decodeRun cs₂).lines ∧
    (decodeRun cs₁).buf = (decodeRun cs₂).buf := by
  have e₁ := decodeRun_lines_buf cs₁ ⟨[], [], []⟩ (by simp)
  have e₂ := decodeRun_lines_buf cs₂ ⟨[], [], []⟩ (by simp)
  constructor
  · rw [decodeRun, decodeRun, e₁.1, e₂.1, h]
  · rw [decodeRun, decodeRun, e₁.2, e₂.2, h]

/-- Witness for C1's amended statement: a record split mid-line across two
    chunks yields the same consumed lines and trailing fragment as the
    single-chunk arrival. -/
theorem claim1_rechunk_lines_witness :
    ([("data: a\nda").data, ("ta: b\n").data] : List (List Char)).flatten =
      ([("data: a\ndata: b\n").data] : List (List Char)).flatten ∧
    ((decodeRun [("data: a\nda").data, ("ta: b\n").data]).lines =
       (decodeRun [("data: a\ndata: b\n").data]).lines ∧
     (decodeRun [("data: a\nda").data, ("ta: b\n").data]).buf =
       (decodeRun [("data: a\ndata: b\n").data]).buf) :=
  ⟨by decide, claim1_rechunk_lines _ _ (by decide)⟩

end ReactSSE
